import Mathlib

/-!
Verification development for the chat conversation/message state controller
(frontend/src/context/ChatContext.jsx).

The controller state is shallowly embedded as an explicit record `ChatState`.
React state reads inside a single synchronous block see the state at the time
the operation was invoked; writes through the setters update the live state.
The `useEffect` hook on `[activeConversation, processingConversationId]`
(lines 31-41 of the source) is modelled by `flushFrom`, which re-runs the
message-load effect whenever one of its dependencies changed across an
operation.  Asynchronous sends are split at the `await` boundary: the part
before the await is a `...Core` start function that records a `PendingReq`
(the closure snapshot of the request), and `resolveCore` is the continuation
that runs when the external reply operation settles.
-/

/-- A conversation record, as built by `createNewConversation`. -/
structure Conversation where
  id : String
  title : String
  timestamp : String
  userId : Option String
deriving DecidableEq, Repr

/-- A message record.  `sender` is the literal string used by the code
("user" or "ai"); optional JS fields become `Option`/defaulted fields. -/
structure Message where
  id : String
  content : String
  sender : String
  timestamp : String
  language : Option String := none
  feedback : Option String := none
  isError : Bool := false
deriving DecidableEq, Repr

/-- Values stored in the key-value store (localStorage): JSON-serialised
conversation lists, message lists, or plain strings. -/
inductive StoredValue where
  | convs (cs : List Conversation)
  | msgs (ms : List Message)
  | str (s : String)
deriving DecidableEq, Repr

/-- The persistent store: an association list from string keys to values,
most recent binding first. -/
abbrev Store := List (String × StoredValue)

/-- Read a key (localStorage.getItem / getFromLocalStorage). -/
def storeGet (s : Store) (k : String) : Option StoredValue :=
  (s.find? (fun kv => decide (kv.1 = k))).map (fun kv => kv.2)

/-- Write a key (localStorage.setItem / saveToLocalStorage). -/
def storeSet (s : Store) (k : String) (v : StoredValue) : Store :=
  (k, v) :: s.filter (fun kv => decide (kv.1 ≠ k))

/-- Remove a key (localStorage.removeItem). -/
def storeRemove (s : Store) (k : String) : Store :=
  s.filter (fun kv => decide (kv.1 ≠ k))

/-- Stored message list for a key, defaulting to `[]` (the `|| []` in the
source; a value of the wrong shape degrades to the default, spec section 7d). -/
def getMsgs (s : Store) (k : String) : List Message :=
  match storeGet s k with
  | some (.msgs ms) => ms
  | _ => []

/-- Stored conversation list for a key, defaulting to `[]`. -/
def getConvs (s : Store) (k : String) : List Conversation :=
  match storeGet s k with
  | some (.convs cs) => cs
  | _ => []

/-- JS `String.prototype.startsWith`: the pattern is a prefix of the string. -/
def jsStartsWith (s pat : String) : Bool :=
  pat.data.isPrefixOf s.data

/-- Key `${uid}_conversations`. -/
def conversationsKey (uid : String) : String := uid ++ "_conversations"

/-- Key `${uid}_activeConversation`. -/
def activeConvKey (uid : String) : String := uid ++ "_activeConversation"

/-- Key `${uid}_messages_${conversationId}`. -/
def messagesKey (uid cid : String) : String := uid ++ "_messages_" ++ cid

/-- The global language-preference key. -/
def preferredLanguageKey : String := "preferredLanguage"

/-- `localStorage.getItem("preferredLanguage") || "en"`. -/
def preferredLangOf (s : Store) : String :=
  match storeGet s preferredLanguageKey with
  | some (.str l) => l
  | _ => "en"

/-- Which controller call produced an in-flight request. -/
inductive ReqKind where
  | send
  | regen
deriving DecidableEq, Repr

/-- The closure snapshot of an in-flight request: everything the `await`
continuation of `sendMessage` / `regenerateResponse` captured by value,
plus the cooperative abort flag of its AbortController. -/
structure PendingReq where
  kind : ReqKind
  conversationId : String
  content : String
  baseMessages : List Message
  history : List Message
  preferredLanguage : String
  snapActive : Option Conversation
  snapConversations : List Conversation
  aborted : Bool
deriving DecidableEq, Repr

/-- The whole controller state: the React state of `ChatProvider` plus the
persistent store and the (at most one) in-flight request. -/
structure ChatState where
  currentUser : Option String
  messages : List Message
  conversations : List Conversation
  activeConversation : Option Conversation
  isLoading : Bool
  lastUserMessage : String
  abortController : Bool
  processingConversationId : Option String
  pending : Option PendingReq
  storage : Store
deriving DecidableEq, Repr

/-- Content of the final message with sender "user", or "" if none
(lines 95-103 of the source). -/
def lastUserContent (ms : List Message) : String :=
  match (ms.filter (fun m => decide (m.sender = "user"))).getLast? with
  | some m => m.content
  | none => ""

/-- `loadConversationMessages` (lines 88-107): read the persisted sequence,
replace the visible log, recompute the last user message.  With no current
user the key interpolation throws inside the try and is swallowed. -/
def loadConversationMessages (conversationId : String) (st : ChatState) : ChatState :=
  match st.currentUser with
  | none => st
  | some uid =>
    let stored := getMsgs st.storage (messagesKey uid conversationId)
    { st with messages := stored, lastUserMessage := lastUserContent stored }

/-- The effect on `[activeConversation, processingConversationId]`
(lines 31-41): reload the active conversation messages and recompute the
loading indicator; with no active conversation, clear the log. -/
def runMessagesEffect (st : ChatState) : ChatState :=
  match st.activeConversation with
  | some conv =>
    let st1 := loadConversationMessages conv.id st
    { st1 with isLoading := decide (st.processingConversationId = some conv.id) }
  | none => { st with messages := [] }

/-- Run the effect after an operation exactly when one of its dependencies
changed (React re-runs the effect on a dependency change). -/
def flushFrom (pre post : ChatState) : ChatState :=
  if post.activeConversation = pre.activeConversation ∧
     post.processingConversationId = pre.processingConversationId
  then post
  else runMessagesEffect post

/-- `setActiveConversationWithStorage` (lines 43-54): no-op when already on
the requested conversation, else switch and persist the active id. -/
def setActiveConversationWithStorage (conversation : Conversation) (st : ChatState) : ChatState :=
  if st.activeConversation.map (fun a => a.id) = some conversation.id then st
  else
    flushFrom st
      { st with
        activeConversation := some conversation,
        storage :=
          match st.currentUser with
          | some uid => storeSet st.storage (activeConvKey uid) (.str conversation.id)
          | none => st.storage }

/-- `createNewConversation` (lines 109-132), without the trailing effect
flush so that it can also be used from inside `deleteAllConversations`.
`base = some l` models passing `baseConversations` (a JS array is truthy
even when empty); `none` models the default `null`. -/
def createNewConversationCore (nid nts : String) (base : Option (List Conversation))
    (st : ChatState) : ChatState :=
  let newConversation : Conversation :=
    { id := nid, title := "New Conversation", timestamp := nts, userId := st.currentUser }
  let updatedConversations :=
    newConversation :: (match base with | some b => b | none => st.conversations)
  { st with
    conversations := updatedConversations,
    activeConversation := some newConversation,
    messages := [],
    lastUserMessage := "",
    storage :=
      match st.currentUser with
      | some uid => storeSet st.storage (conversationsKey uid) (.convs updatedConversations)
      | none => st.storage }

/-- `createNewConversation()` as a user-level operation (effect included). -/
def createNewConversationOp (nid nts : String) (st : ChatState) : ChatState :=
  flushFrom st (createNewConversationCore nid nts none st)

/-- Title derivation of `updateConversationTitle` (lines 136-139):
`firstMessage.length > 30 ? firstMessage.substring(0, 30) + "..." : firstMessage`. -/
def deriveTitle (firstMessage : String) : String :=
  if firstMessage.length > 30 then String.mk (firstMessage.data.take 30) ++ "..."
  else firstMessage

/-- `updateConversationTitle` (lines 134-156). -/
def updateConversationTitle (conversationId firstMessage : String) (st : ChatState) : ChatState :=
  let title := deriveTitle firstMessage
  let updatedConversations :=
    st.conversations.map (fun conv =>
      if conv.id = conversationId then { conv with title := title } else conv)
  let st1 := { st with conversations := updatedConversations }
  let st2 :=
    match st.activeConversation with
    | some a =>
      if a.id = conversationId then { st1 with activeConversation := some { a with title := title } }
      else st1
    | none => st1
  match st.currentUser with
  | some uid => { st2 with storage := storeSet st2.storage (conversationsKey uid) (.convs updatedConversations) }
  | none => st2

/-- Outcome tag of a controller start call. -/
inductive StartResult where
  | started
  | noop
  | invariantErrored
  | crashed
deriving DecidableEq, Repr

/-- `sendMessage` (lines 158-292) up to the `await` of the reply operation.
With no active conversation the code calls `createNewConversation()` and then
immediately reads `activeConversation.id`; the state setter has not changed
the local binding, which is still null, so the read throws a TypeError and
the operation crashes (the conversation creation, already applied through the
setters, survives).  `umid`/`uts` are the fresh id and timestamp of the user
message; `nid`/`nts` those of the conversation created on the crash path. -/
def sendMessageCore (content umid uts nid nts : String) (st : ChatState) :
    ChatState × StartResult :=
  match st.activeConversation with
  | none => (createNewConversationCore nid nts none st, .crashed)
  | some active =>
    let currentConversationId := active.id
    let st1 := { st with
      processingConversationId := some currentConversationId,
      abortController := true,
      isLoading := true,
      lastUserMessage := content }
    let preferredLanguage := preferredLangOf st.storage
    let userMessage : Message :=
      { id := umid, content := content, sender := "user", timestamp := uts }
    let currentMessages := st.messages
    let updatedMessages := currentMessages ++ [userMessage]
    let st2 :=
      if currentMessages = [] then updateConversationTitle currentConversationId content st1
      else st1
    let st3 :=
      match st.currentUser with
      | some uid =>
        { st2 with storage := storeSet st2.storage (messagesKey uid currentConversationId) (.msgs updatedMessages) }
      | none => st2
    let st4 :=
      if st.activeConversation.map (fun a => a.id) = some currentConversationId then
        { st3 with messages := updatedMessages }
      else st3
    let req : PendingReq :=
      { kind := .send,
        conversationId := currentConversationId,
        content := content,
        baseMessages := updatedMessages,
        history := currentMessages,
        preferredLanguage := preferredLanguage,
        snapActive := st.activeConversation,
        snapConversations := st.conversations,
        aborted := false }
    ({ st4 with pending := some req }, .started)

/-- `sendMessage` start as a user-level operation (effect included). -/
def sendMessageOp (content umid uts nid nts : String) (st : ChatState) :
    ChatState × StartResult :=
  let r := sendMessageCore content umid uts nid nts st
  (flushFrom st r.1, r.2)

/-- How the external reply operation settled, ignoring cancellation. -/
inductive ReplyResult where
  | ok (message : String)
  | err
deriving DecidableEq, Repr

/-- What the awaited call delivers to the controller. -/
inductive Outcome where
  | success (message : String)
  | abortError
  | otherError
deriving DecidableEq, Repr

/-- Modelled from the spec: the external reply operation
(`chatService.sendChatMessage`, not under src/) receives the cancellation
handle signal.  Per the collaborator contract (spec sections 5 and 6), a
triggered signal makes the awaited call settle with the distinguished
cancellation failure (AbortError) even when the underlying work completed
successfully, so a request whose controller was aborted always delivers the
abort outcome. -/
def settledOutcome (aborted : Bool) (res : ReplyResult) : Outcome :=
  if aborted then .abortError
  else
    match res with
    | .ok m => .success m
    | .err => .otherError

/-- Apology text of the `sendMessage` error path (line 261). -/
def sendErrorText : String := "Sorry, I couldn't process your request. Please try again."

/-- Apology text of the `regenerateResponse` error path (line 416). -/
def regenErrorText : String := "Sorry, I couldn't regenerate a response. Please try again."

/-- The continuation of `sendMessage` / `regenerateResponse` after the
`await` (lines 217-291 and 371-446), without the trailing effect flush:
success path, error path guarded by the AbortError check, and the `finally`
block.  `fid`/`now` are the fresh id and timestamp used by whichever branch
runs.  All reads of React state are reads of the closure snapshot stored in
the request; the setters write the live state. -/
def resolveCore (res : ReplyResult) (fid now : String) (st : ChatState) : ChatState :=
  match st.pending with
  | none => st
  | some req =>
    let focused := req.snapActive.map (fun a => a.id) = some req.conversationId
    let afterTry :=
      match settledOutcome req.aborted res with
      | .abortError => st
      | .success m =>
        let aiMessage : Message :=
          { id := fid, content := m, sender := "ai", timestamp := now,
            language := some req.preferredLanguage }
        let finalMessages := req.baseMessages ++ [aiMessage]
        let updatedConversations :=
          req.snapConversations.map (fun (conv : Conversation) =>
            if conv.id = req.conversationId then { conv with timestamp := now } else conv)
        let s1 := { st with conversations := updatedConversations }
        let s2 :=
          match st.currentUser with
          | some uid =>
            let stg := storeSet s1.storage (conversationsKey uid) (.convs updatedConversations)
            let stg2 := storeSet stg (messagesKey uid req.conversationId) (.msgs finalMessages)
            { s1 with storage := stg2 }
          | none => s1
        if focused then
          match req.kind with
          | .send => { s2 with messages := finalMessages }
          | .regen => { s2 with messages := finalMessages, lastUserMessage := req.content }
        else s2
      | .otherError =>
        match st.currentUser with
        | none => st
        | some uid =>
          let errorText := match req.kind with | .send => sendErrorText | .regen => regenErrorText
          let errorMessage : Message :=
            { id := fid, content := errorText, sender := "ai", timestamp := now, isError := true }
          let storedMessages := getMsgs st.storage (messagesKey uid req.conversationId)
          let updatedMessages := storedMessages ++ [errorMessage]
          let stg := storeSet st.storage (messagesKey uid req.conversationId) (.msgs updatedMessages)
          let s1 := { st with storage := stg }
          if focused then { s1 with messages := updatedMessages } else s1
    let fin := { afterTry with
      processingConversationId := none,
      abortController := false,
      pending := none }
    if focused then { fin with isLoading := false } else fin

/-- Settling of the in-flight request as a user-level step (effect included). -/
def resolveOp (res : ReplyResult) (fid now : String) (st : ChatState) : ChatState :=
  flushFrom st (resolveCore res fid now st)

/-- `stopResponse` (lines 294-301): when a controller exists, signal abort on
it, clear the loading indicator, the controller and the processing marker;
otherwise do nothing at all. -/
def stopResponse (st : ChatState) : ChatState :=
  if st.abortController then
    flushFrom st
      { st with
        pending := st.pending.map (fun r => { r with aborted := true }),
        isLoading := false,
        abortController := false,
        processingConversationId := none }
  else st

/-- JS `Array.prototype.findIndex`, as an `Option Nat`. -/
def jsFindIndex (p : Message → Bool) : List Message → Option Nat
  | [] => none
  | m :: rest => if p m then some 0 else (jsFindIndex p rest).map (fun n => n + 1)

/-- The backward scan of `regenerateResponse` (lines 323-329): starting at
`i - 1`, walk down to the nearest index with sender "user". -/
def scanBackForUser (msgs : List Message) : Nat → Option Nat
  | 0 => none
  | j + 1 =>
    match msgs.get? j with
    | some m => if m.sender = "user" then some j else scanBackForUser msgs j
    | none => scanBackForUser msgs j

/-- `regenerateResponse` (lines 303-447) up to the `await`.  The branch with
no preceding user message throws, which the generic catch of the same
function handles by appending a synthetic error message (it is not an
AbortError), then the `finally` block runs; that path completes without
any request in flight.  `errId`/`errTs` are the fresh id and timestamp of
the error message on that path. -/
def regenerateResponseCore (messageId errId errTs : String) (st : ChatState) :
    ChatState × StartResult :=
  match jsFindIndex (fun m => decide (m.id = messageId)) st.messages with
  | none => (st, .noop)
  | some messageIndex =>
    match st.messages.get? messageIndex with
    | none => (st, .noop)
    | some target =>
      if target.sender ≠ "ai" then (st, .noop)
      else
        match st.activeConversation with
        | none => (st, .crashed)
        | some active =>
          let currentConversationId := active.id
          let st1 := { st with
            processingConversationId := some currentConversationId,
            abortController := true,
            isLoading := true }
          match scanBackForUser st.messages messageIndex with
          | none =>
            let st2 :=
              match st.currentUser with
              | none => st1
              | some uid =>
                let errorMessage : Message :=
                  { id := errId, content := regenErrorText, sender := "ai",
                    timestamp := errTs, isError := true }
                let storedMessages := getMsgs st1.storage (messagesKey uid currentConversationId)
                let updatedMessages := storedMessages ++ [errorMessage]
                let stg := storeSet st1.storage (messagesKey uid currentConversationId) (.msgs updatedMessages)
                let s := { st1 with storage := stg }
                if st.activeConversation.map (fun (a : Conversation) => a.id) = some currentConversationId then
                  { s with messages := updatedMessages }
                else s
            let fin := { st2 with processingConversationId := none, abortController := false }
            let fin2 :=
              if st.activeConversation.map (fun a => a.id) = some currentConversationId then
                { fin with isLoading := false }
              else fin
            (fin2, .invariantErrored)
          | some userMessageIndex =>
            match st.messages.get? userMessageIndex with
            | none => (st1, .noop)
            | some userMessage =>
              let userMessageContent := userMessage.content
              let updatedMessages :=
                if messageIndex < st.messages.length - 1 then st.messages.take messageIndex
                else st.messages.filter (fun m => decide (m.id ≠ messageId))
              let st2 :=
                match st.currentUser with
                | some uid =>
                  let stg := storeSet st1.storage (messagesKey uid currentConversationId) (.msgs updatedMessages)
                  { st1 with storage := stg }
                | none => st1
              let st3 :=
                if st.activeConversation.map (fun a => a.id) = some currentConversationId then
                  { st2 with messages := updatedMessages }
                else st2
              let preferredLanguage := preferredLangOf st2.storage
              let req : PendingReq :=
                { kind := .regen,
                  conversationId := currentConversationId,
                  content := userMessageContent,
                  baseMessages := updatedMessages,
                  history := updatedMessages.take userMessageIndex,
                  preferredLanguage := preferredLanguage,
                  snapActive := st.activeConversation,
                  snapConversations := st.conversations,
                  aborted := false }
              ({ st3 with pending := some req }, .started)

/-- `regenerateResponse` start as a user-level operation (effect included). -/
def regenerateResponseOp (messageId errId errTs : String) (st : ChatState) :
    ChatState × StartResult :=
  let r := regenerateResponseCore messageId errId errTs st
  (flushFrom st r.1, r.2)

/-- `provideMessageFeedback` (lines 449-475). -/
def provideMessageFeedback (messageId : String) (isPositive : Bool) (st : ChatState) : ChatState :=
  match st.messages.find? (fun m => decide (m.id = messageId)) with
  | none => st
  | some messageToRate =>
    if messageToRate.sender ≠ "ai" then st
    else
      let updatedMessages :=
        st.messages.map (fun msg =>
          if msg.id = messageId then
            { msg with feedback := some (if isPositive then "positive" else "negative") }
          else msg)
      let st1 := { st with messages := updatedMessages }
      match st.currentUser, st.activeConversation with
      | some uid, some a =>
        { st1 with storage := storeSet st1.storage (messagesKey uid a.id) (.msgs updatedMessages) }
      | _, _ => st1

/-- `deleteConversation` (lines 477-507). -/
def deleteConversationOp (conversationId : String) (st : ChatState) : ChatState :=
  let st1 :=
    if st.processingConversationId = some conversationId ∧ st.abortController then
      { st with
        pending := st.pending.map (fun r => { r with aborted := true }),
        abortController := false,
        processingConversationId := none }
    else st
  let st2 := { st1 with conversations := st1.conversations.filter (fun c => decide (c.id ≠ conversationId)) }
  let st3 :=
    if st.activeConversation.map (fun a => a.id) = some conversationId then
      { st2 with activeConversation := st.conversations.find? (fun c => decide (c.id ≠ conversationId)) }
    else st2
  let st4 :=
    match st.currentUser with
    | some uid =>
      let removed := storeRemove st3.storage (messagesKey uid conversationId)
      let remaining := st.conversations.filter (fun c => decide (c.id ≠ conversationId))
      { st3 with storage := storeSet removed (conversationsKey uid) (.convs remaining) }
    | none => st3
  flushFrom st st4

/-- `deleteAllConversations` (lines 509-538). -/
def deleteAllConversationsOp (nid nts : String) (st : ChatState) : ChatState :=
  let st1 :=
    if st.processingConversationId.isSome ∧ st.abortController then
      { st with
        pending := st.pending.map (fun r => { r with aborted := true }),
        abortController := false,
        processingConversationId := none }
    else st
  let st2 := { st1 with conversations := [], activeConversation := none, messages := [] }
  let st3 :=
    match st.currentUser with
    | none => st2
    | some uid =>
      let cleared :=
        { st2 with storage := st2.storage.filter (fun kv => !(jsStartsWith kv.1 (uid ++ "_"))) }
      createNewConversationCore nid nts (some []) cleared
  flushFrom st st3

/-- A create or delete operation on the conversation store. -/
inductive ConvOp where
  | create (nid nts : String)
  | delete (cid : String)
deriving DecidableEq, Repr

/-- Interpret one conversation-store operation. -/
def applyConvOp : ConvOp → ChatState → ChatState
  | .create nid nts, st => createNewConversationOp nid nts st
  | .delete cid, st => deleteConversationOp cid st

/-- Interpret a sequence of conversation-store operations. -/
def applyConvOps (ops : List ConvOp) (st : ChatState) : ChatState :=
  ops.foldl (fun s o => applyConvOp o s) st

/-- The active-pointer invariant: the active conversation, when present, is an
element of the in-memory conversation store. -/
def activePointerInv (st : ChatState) : Prop :=
  ∀ a, st.activeConversation = some a → a ∈ st.conversations

/-- Sample conversation A. -/
def convA : Conversation := { id := "A", title := "Chat A", timestamp := "t0", userId := some "u1" }

/-- Sample conversation B. -/
def convB : Conversation := { id := "B", title := "Chat B", timestamp := "t0", userId := some "u1" }

/-- Sample user message in conversation A. -/
def msgUserA : Message := { id := "mu1", content := "hello", sender := "user", timestamp := "t1" }

/-- Sample assistant message in conversation A. -/
def msgAiA : Message := { id := "ma1", content := "hi there", sender := "ai", timestamp := "t2" }

/-- Sample user message in conversation B. -/
def msgUserB : Message := { id := "mu2", content := "yo", sender := "user", timestamp := "t1" }

/-- Sample state: user u1 signed in, two conversations, A active and synced. -/
def stTwoConvs : ChatState :=
  { currentUser := some "u1",
    messages := [msgUserA, msgAiA],
    conversations := [convA, convB],
    activeConversation := some convA,
    isLoading := false,
    lastUserMessage := "hello",
    abortController := false,
    processingConversationId := none,
    pending := none,
    storage := [(messagesKey "u1" "A", .msgs [msgUserA, msgAiA]),
                (messagesKey "u1" "B", .msgs [msgUserB])] }

/-- Sample state with no active conversation. -/
def stNoActive : ChatState :=
  { currentUser := some "u1", messages := [], conversations := [],
    activeConversation := none, isLoading := false, lastUserMessage := "",
    abortController := false, processingConversationId := none, pending := none,
    storage := [] }

/-- Sample state whose visible log starts with an assistant message. -/
def stAiOnly : ChatState :=
  { currentUser := some "u1", messages := [msgAiA], conversations := [convA],
    activeConversation := some convA, isLoading := false, lastUserMessage := "",
    abortController := false, processingConversationId := none, pending := none,
    storage := [(messagesKey "u1" "A", .msgs [msgAiA])] }

/-- Sample state with a send in flight on conversation A. -/
def stSending : ChatState :=
  (sendMessageOp "ping" "mu9" "t9" "n0" "tn" stTwoConvs).1


theorem storeGet_set_self (s : Store) (k : String) (v : StoredValue) :
    storeGet (storeSet s k v) k = some v := by
  unfold storeGet storeSet
  rw [List.find?_cons_of_pos _ (by simp)]
  rfl

theorem find?_filter_keep (s : Store) (k : String) (q : String × StoredValue → Bool)
    (hq : ∀ kv : String × StoredValue, kv.1 = k → q kv = true) :
    (s.filter q).find? (fun kv => decide (kv.1 = k)) = s.find? (fun kv => decide (kv.1 = k)) := by
  induction s with
  | nil => rfl
  | cons kv rest ih =>
    by_cases hk : kv.1 = k
    · rw [List.filter_cons, if_pos (hq kv hk)]
      rw [List.find?_cons_of_pos _ (by simp [hk]), List.find?_cons_of_pos _ (by simp [hk])]
    · cases hqkv : q kv
      · rw [List.filter_cons, if_neg (by simp [hqkv])]
        rw [ih, List.find?_cons_of_neg _ (by simp [hk])]
      · rw [List.filter_cons, if_pos hqkv]
        rw [List.find?_cons_of_neg _ (by simp [hk]), List.find?_cons_of_neg _ (by simp [hk]), ih]

theorem storeGet_set_ne (s : Store) (k k' : String) (v : StoredValue) (h : k' ≠ k) :
    storeGet (storeSet s k v) k' = storeGet s k' := by
  unfold storeGet storeSet
  rw [List.find?_cons_of_neg _ (by simp [Ne.symm h])]
  rw [find?_filter_keep]
  intro kv hkv
  simp [hkv, h]

theorem storeGet_remove_ne (s : Store) (k k' : String) (h : k' ≠ k) :
    storeGet (storeRemove s k) k' = storeGet s k' := by
  unfold storeGet storeRemove
  rw [find?_filter_keep]
  intro kv hkv
  simp [hkv, h]

theorem storeGet_filter_out (s : Store) (q : String → Bool) (k : String) (hq : q k = true) :
    storeGet (s.filter (fun kv => !(q kv.1))) k = none := by
  induction s with
  | nil => rfl
  | cons kv rest ih =>
    by_cases hk : kv.1 = k
    · rw [List.filter_cons, if_neg (by simp [hk, hq])]
      exact ih
    · cases hqkv : !(q kv.1)
      · rw [List.filter_cons, if_neg (by simp [hqkv])]
        exact ih
      · rw [List.filter_cons, if_pos hqkv]
        unfold storeGet
        rw [List.find?_cons_of_neg _ (by simp [hk])]
        exact ih

theorem getMsgs_set_self (s : Store) (k : String) (ms : List Message) :
    getMsgs (storeSet s k (.msgs ms)) k = ms := by
  simp [getMsgs, storeGet_set_self]

theorem getMsgs_set_ne (s : Store) (k k' : String) (v : StoredValue) (h : k' ≠ k) :
    getMsgs (storeSet s k v) k' = getMsgs s k' := by
  simp [getMsgs, storeGet_set_ne s k k' v h]

theorem preferredLangOf_set_ne (s : Store) (k : String) (v : StoredValue)
    (h : preferredLanguageKey ≠ k) : preferredLangOf (storeSet s k v) = preferredLangOf s := by
  simp [preferredLangOf, storeGet_set_ne s k _ v h]

theorem messagesKey_inj (u a b : String) (h : messagesKey u a = messagesKey u b) : a = b := by
  unfold messagesKey at h
  have hd := congrArg String.data h
  simp only [String.data_append, List.append_assoc] at hd
  have h2 := List.append_cancel_left hd
  have h3 := List.append_cancel_left h2
  exact String.ext h3

theorem messagesKey_ne_conversationsKey (u c : String) :
    messagesKey u c ≠ conversationsKey u := by
  intro h
  unfold messagesKey conversationsKey at h
  have hd := congrArg String.data h
  simp only [String.data_append, List.append_assoc] at hd
  have h2 := List.append_cancel_left hd
  simp at h2

theorem messagesKey_ne_activeConvKey (u c : String) :
    messagesKey u c ≠ activeConvKey u := by
  intro h
  unfold messagesKey activeConvKey at h
  have hd := congrArg String.data h
  simp only [String.data_append, List.append_assoc] at hd
  have h2 := List.append_cancel_left hd
  simp at h2

theorem preferredLanguageKey_ne_messagesKey (u c : String) :
    preferredLanguageKey ≠ messagesKey u c := by
  intro h
  unfold messagesKey preferredLanguageKey at h
  have hd := congrArg String.data h.symm
  simp only [String.data_append, List.append_assoc] at hd
  have hm : '_' ∈ u.data ++ ("_messages_".data ++ c.data) := by
    refine List.mem_append.mpr (Or.inr (List.mem_append.mpr (Or.inl ?_)))
    decide
  rw [hd] at hm
  revert hm
  decide

theorem isPrefixOf_append_self (p r : List Char) : p.isPrefixOf (p ++ r) = true := by
  induction p with
  | nil => simp [List.isPrefixOf]
  | cons c cs ih => simp [List.isPrefixOf, ih]

theorem isPrefixOf_cons_append (p : List Char) (c : Char) (r : List Char) :
    (p ++ [c]).isPrefixOf (p ++ c :: r) = true := by
  rw [show p ++ c :: r = (p ++ [c]) ++ r by simp]
  exact isPrefixOf_append_self _ _

theorem jsStartsWith_messagesKey (u c : String) :
    jsStartsWith (messagesKey u c) (u ++ "_") = true := by
  unfold jsStartsWith messagesKey
  simp only [String.data_append, List.append_assoc, List.cons_append, List.nil_append]
  exact isPrefixOf_cons_append u.data '_' _

theorem jsStartsWith_conversationsKey (u : String) :
    jsStartsWith (conversationsKey u) (u ++ "_") = true := by
  unfold jsStartsWith conversationsKey
  simp only [String.data_append, List.append_assoc, List.cons_append, List.nil_append]
  exact isPrefixOf_cons_append u.data '_' _

theorem runMessagesEffect_frame (st : ChatState) :
    (runMessagesEffect st).currentUser = st.currentUser ∧
    (runMessagesEffect st).conversations = st.conversations ∧
    (runMessagesEffect st).activeConversation = st.activeConversation ∧
    (runMessagesEffect st).processingConversationId = st.processingConversationId ∧
    (runMessagesEffect st).pending = st.pending ∧
    (runMessagesEffect st).storage = st.storage ∧
    (runMessagesEffect st).abortController = st.abortController := by
  unfold runMessagesEffect loadConversationMessages
  cases hact : st.activeConversation with
  | none => simp [hact]
  | some conv =>
    cases hcu : st.currentUser with
    | none => simp [hcu, hact]
    | some uid => simp [hcu, hact]

theorem flushFrom_frame (pre post : ChatState) :
    (flushFrom pre post).currentUser = post.currentUser ∧
    (flushFrom pre post).conversations = post.conversations ∧
    (flushFrom pre post).activeConversation = post.activeConversation ∧
    (flushFrom pre post).processingConversationId = post.processingConversationId ∧
    (flushFrom pre post).pending = post.pending ∧
    (flushFrom pre post).storage = post.storage ∧
    (flushFrom pre post).abortController = post.abortController := by
  unfold flushFrom
  split
  · exact ⟨rfl, rfl, rfl, rfl, rfl, rfl, rfl⟩
  · exact runMessagesEffect_frame post

/-- C10: calling Stop when no cancellation handle exists is a complete no-op:
the loading indicator, the processing marker, the message log, the conversation
store and all persisted storage are left exactly as they were. -/
theorem stop_without_handle_is_noop (st : ChatState) (h : st.abortController = false) :
    stopResponse st = st := by
  unfold stopResponse
  rw [if_neg (by simp [h])]

theorem stop_without_handle_is_noop_witness : stopResponse stTwoConvs = stTwoConvs :=
  stop_without_handle_is_noop stTwoConvs rfl

/-- C8: the derived conversation title is the text verbatim when its length is
at most 30, and the first 30 characters followed by the ellipsis marker "..."
when the length exceeds 30. -/
theorem title_derivation_truncates (text : String) :
    (text.length ≤ 30 → deriveTitle text = text) ∧
    (text.length > 30 → (deriveTitle text).data = text.data.take 30 ++ "...".data) := by
  constructor
  · intro h
    unfold deriveTitle
    rw [if_neg (by omega)]
  · intro h
    unfold deriveTitle
    rw [if_pos h, String.data_append]

theorem title_derivation_truncates_witness :
    (deriveTitle "hello" = "hello") ∧
    ((deriveTitle "a very long first message that exceeds the limit").data =
      "a very long first message that exceeds the limit".data.take 30 ++ "...".data) :=
  ⟨(title_derivation_truncates "hello").1 (by decide),
   (title_derivation_truncates "a very long first message that exceeds the limit").2 (by decide)⟩

/-- C6 (code bug witness): calling sendMessage with no active conversation
creates a conversation through the state setters, but the subsequent read of
`activeConversation.id` still sees the null closure value and throws, so the
operation crashes: no user message is appended or persisted and no request is
started, even though the fresh conversation exists. -/
theorem send_without_active_conversation_crashes :
    (sendMessageOp "hello" "m1" "t1" "c1" "t0" stNoActive).2 = StartResult.crashed ∧
    (sendMessageOp "hello" "m1" "t1" "c1" "t0" stNoActive).1.conversations ≠ [] ∧
    (sendMessageOp "hello" "m1" "t1" "c1" "t0" stNoActive).1.pending = none ∧
    (sendMessageOp "hello" "m1" "t1" "c1" "t0" stNoActive).1.messages = [] ∧
    getMsgs (sendMessageOp "hello" "m1" "t1" "c1" "t0" stNoActive).1.storage
      (messagesKey "u1" "c1") = [] := by
  decide

/-- C4 (counterexample): regenerating the only message of a log that starts
with an assistant message mutates both the visible log and the persisted
sequence, contradicting the claim that no partial state mutation occurs. -/
theorem regen_orphan_counterexample :
    (regenerateResponseOp "ma1" "e1" "te" stAiOnly).1.messages ≠ stAiOnly.messages ∧
    getMsgs (regenerateResponseOp "ma1" "e1" "te" stAiOnly).1.storage (messagesKey "u1" "A") ≠
      getMsgs stAiOnly.storage (messagesKey "u1" "A") := by
  decide

/-- C4 (amended): when Regenerate hits an assistant message with no preceding
user message, no truncation or reply request happens, but the failure is
caught inside the operation rather than reported: a synthetic error assistant
message is appended to the persisted sequence and the visible log of the
(still focused) conversation, and the processing/loading markers are cleared;
the conversation store and the in-flight record are untouched. -/
theorem regen_orphan_appends_error (st : ChatState) (u : String) (a : Conversation)
    (mid errId errTs : String) (i : Nat) (target : Message)
    (hu : st.currentUser = some u) (ha : st.activeConversation = some a)
    (hfind : jsFindIndex (fun m => decide (m.id = mid)) st.messages = some i)
    (hget : st.messages.get? i = some target) (hai : target.sender = "ai")
    (hscan : scanBackForUser st.messages i = none) :
    (regenerateResponseOp mid errId errTs st).2 = StartResult.invariantErrored ∧
    (regenerateResponseOp mid errId errTs st).1.messages =
      getMsgs st.storage (messagesKey u a.id) ++
        [{ id := errId, content := regenErrorText, sender := "ai", timestamp := errTs, isError := true }] ∧
    getMsgs (regenerateResponseOp mid errId errTs st).1.storage (messagesKey u a.id) =
      getMsgs st.storage (messagesKey u a.id) ++
        [{ id := errId, content := regenErrorText, sender := "ai", timestamp := errTs, isError := true }] ∧
    (regenerateResponseOp mid errId errTs st).1.conversations = st.conversations ∧
    (regenerateResponseOp mid errId errTs st).1.pending = st.pending ∧
    (regenerateResponseOp mid errId errTs st).1.processingConversationId = none ∧
    (regenerateResponseOp mid errId errTs st).1.abortController = false ∧
    (regenerateResponseOp mid errId errTs st).1.isLoading = false := by
  unfold regenerateResponseOp regenerateResponseCore
  rw [hfind]
  simp only [hget, hscan, ha, hu, hai]
  simp only [ne_eq, not_true_eq_false, if_false, Option.map_some', reduceIte]
  refine ⟨trivial, ?_, ?_, ?_, ?_, ?_, ?_, ?_⟩
  · unfold flushFrom
    split
    · rfl
    · unfold runMessagesEffect loadConversationMessages
      simp [getMsgs_set_self]
  · rw [(flushFrom_frame _ _).2.2.2.2.2.1]
    simp [getMsgs_set_self]
  · exact (flushFrom_frame _ _).2.1
  · exact (flushFrom_frame _ _).2.2.2.2.1
  · exact (flushFrom_frame _ _).2.2.2.1
  · exact (flushFrom_frame _ _).2.2.2.2.2.2
  · unfold flushFrom
    split
    · rfl
    · unfold runMessagesEffect loadConversationMessages
      simp

theorem regen_orphan_appends_error_witness :
    (regenerateResponseOp "ma1" "e1" "te" stAiOnly).2 = StartResult.invariantErrored ∧
    (regenerateResponseOp "ma1" "e1" "te" stAiOnly).1.messages =
      getMsgs stAiOnly.storage (messagesKey "u1" "A") ++
        [{ id := "e1", content := regenErrorText, sender := "ai", timestamp := "te", isError := true }] ∧
    getMsgs (regenerateResponseOp "ma1" "e1" "te" stAiOnly).1.storage (messagesKey "u1" "A") =
      getMsgs stAiOnly.storage (messagesKey "u1" "A") ++
        [{ id := "e1", content := regenErrorText, sender := "ai", timestamp := "te", isError := true }] ∧
    (regenerateResponseOp "ma1" "e1" "te" stAiOnly).1.conversations = stAiOnly.conversations ∧
    (regenerateResponseOp "ma1" "e1" "te" stAiOnly).1.pending = stAiOnly.pending ∧
    (regenerateResponseOp "ma1" "e1" "te" stAiOnly).1.processingConversationId = none ∧
    (regenerateResponseOp "ma1" "e1" "te" stAiOnly).1.abortController = false ∧
    (regenerateResponseOp "ma1" "e1" "te" stAiOnly).1.isLoading = false :=
  regen_orphan_appends_error stAiOnly "u1" convA "ma1" "e1" "te" 0 msgAiA rfl rfl
    (by decide) (by decide) rfl (by decide)

theorem flushFrom_activeConversation (pre post : ChatState) :
    (flushFrom pre post).activeConversation = post.activeConversation :=
  (flushFrom_frame pre post).2.2.1

theorem flushFrom_conversations (pre post : ChatState) :
    (flushFrom pre post).conversations = post.conversations :=
  (flushFrom_frame pre post).2.1

/-- C9: feedback is a no-op unless the message is found in the visible log and
is an assistant message; when it is, the feedback tag is set in the visible
log and in the persisted storage of the active conversation, and the tag is
what a reload of that conversation yields. -/
theorem feedback_requires_ai_and_persists (st : ChatState) (u : String) (a : Conversation)
    (mid : String) (isPositive : Bool)
    (hu : st.currentUser = some u) (ha : st.activeConversation = some a) :
    ((st.messages.find? (fun m => decide (m.id = mid)) = none ∨
      (∃ m, st.messages.find? (fun m => decide (m.id = mid)) = some m ∧ m.sender ≠ "ai")) →
      provideMessageFeedback mid isPositive st = st) ∧
    (∀ m, st.messages.find? (fun m => decide (m.id = mid)) = some m → m.sender = "ai" →
      (provideMessageFeedback mid isPositive st).messages =
        st.messages.map (fun msg =>
          if msg.id = mid then
            { msg with feedback := some (if isPositive then "positive" else "negative") }
          else msg) ∧
      getMsgs (provideMessageFeedback mid isPositive st).storage (messagesKey u a.id) =
        (provideMessageFeedback mid isPositive st).messages ∧
      (loadConversationMessages a.id (provideMessageFeedback mid isPositive st)).messages =
        (provideMessageFeedback mid isPositive st).messages) := by
  constructor
  · intro h
    unfold provideMessageFeedback
    rcases h with hnone | ⟨m, hm, hms⟩
    · rw [hnone]
    · simp only [hm]
      rw [if_pos hms]
  · intro m hm hms
    unfold provideMessageFeedback
    simp only [hm, hms, ne_eq, not_true_eq_false, if_false, hu, ha]
    refine ⟨by trivial, ?_, ?_⟩
    · exact getMsgs_set_self _ _ _
    · unfold loadConversationMessages
      simp [getMsgs_set_self]

theorem feedback_requires_ai_and_persists_witness :
    ((stTwoConvs.messages.find? (fun m => decide (m.id = "ma1")) = none ∨
      (∃ m, stTwoConvs.messages.find? (fun m => decide (m.id = "ma1")) = some m ∧ m.sender ≠ "ai")) →
      provideMessageFeedback "ma1" true stTwoConvs = stTwoConvs) ∧
    (∀ m, stTwoConvs.messages.find? (fun m => decide (m.id = "ma1")) = some m → m.sender = "ai" →
      (provideMessageFeedback "ma1" true stTwoConvs).messages =
        stTwoConvs.messages.map (fun msg =>
          if msg.id = "ma1" then
            { msg with feedback := some (if true then "positive" else "negative") }
          else msg) ∧
      getMsgs (provideMessageFeedback "ma1" true stTwoConvs).storage (messagesKey "u1" convA.id) =
        (provideMessageFeedback "ma1" true stTwoConvs).messages ∧
      (loadConversationMessages convA.id (provideMessageFeedback "ma1" true stTwoConvs)).messages =
        (provideMessageFeedback "ma1" true stTwoConvs).messages) :=
  feedback_requires_ai_and_persists stTwoConvs "u1" convA "ma1" true rfl rfl

theorem createNewConversationOp_preserves (nid nts : String) (st : ChatState)
    (h : activePointerInv st) : activePointerInv (createNewConversationOp nid nts st) := by
  intro a hact
  unfold createNewConversationOp at hact ⊢
  rw [flushFrom_activeConversation] at hact
  rw [flushFrom_conversations]
  simp [createNewConversationCore] at hact ⊢
  exact Or.inl hact.symm

theorem deleteConversationOp_preserves (cid : String) (st : ChatState)
    (h : activePointerInv st) : activePointerInv (deleteConversationOp cid st) := by
  intro a hact
  unfold deleteConversationOp at hact ⊢
  rw [flushFrom_activeConversation] at hact
  rw [flushFrom_conversations]
  by_cases hdel : st.activeConversation.map (fun a => a.id) = some cid
  all_goals cases hcu : st.currentUser
  all_goals simp only [hdel, hcu, if_true, if_false, reduceIte,
    apply_ite ChatState.conversations, apply_ite ChatState.activeConversation, ite_self] at hact ⊢
  case pos.none =>
    have hpred := @List.find?_some Conversation (fun c => decide (c.id ≠ cid)) a st.conversations hact
    exact List.mem_filter.mpr ⟨List.mem_of_find?_eq_some hact, hpred⟩
  case pos.some =>
    have hpred := @List.find?_some Conversation (fun c => decide (c.id ≠ cid)) a st.conversations hact
    exact List.mem_filter.mpr ⟨List.mem_of_find?_eq_some hact, hpred⟩
  case neg.none =>
    refine List.mem_filter.mpr ⟨h a hact, ?_⟩
    rw [decide_eq_true_eq]
    intro hid
    exact hdel (by rw [hact, Option.map_some', hid])
  case neg.some =>
    refine List.mem_filter.mpr ⟨h a hact, ?_⟩
    rw [decide_eq_true_eq]
    intro hid
    exact hdel (by rw [hact, Option.map_some', hid])

/-- C5: starting from any state where the active pointer references nothing or
a stored conversation, every sequence of create and delete operations
preserves that property. -/
theorem active_pointer_always_valid (st : ChatState) (h : activePointerInv st)
    (ops : List ConvOp) : activePointerInv (applyConvOps ops st) := by
  induction ops generalizing st with
  | nil => exact h
  | cons op rest ih =>
    have hstep : activePointerInv (applyConvOp op st) := by
      cases op with
      | create nid nts => exact createNewConversationOp_preserves nid nts st h
      | delete cid => exact deleteConversationOp_preserves cid st h
    exact ih _ hstep

theorem active_pointer_always_valid_witness :
    activePointerInv (applyConvOps [ConvOp.create "c1" "tc", ConvOp.delete "A", ConvOp.delete "c1"] stTwoConvs) :=
  active_pointer_always_valid stTwoConvs
    (by
      intro a hact
      simp only [stTwoConvs] at hact ⊢
      rw [Option.some.injEq] at hact
      simp [hact.symm])
    [ConvOp.create "c1" "tc", ConvOp.delete "A", ConvOp.delete "c1"]

theorem storeGet_filter_keep (s : Store) (q : String → Bool) (k : String) (hq : q k = false) :
    storeGet (s.filter (fun kv => !(q kv.1))) k = storeGet s k := by
  unfold storeGet
  rw [find?_filter_keep]
  intro kv hkv
  simp [hkv, hq]

theorem storeGet_filter_owned_out (s : Store) (p k : String) (hq : jsStartsWith k p = true) :
    storeGet (s.filter (fun kv => !jsStartsWith kv.1 p)) k = none :=
  storeGet_filter_out s (fun x => jsStartsWith x p) k hq

theorem storeGet_filter_owned_keep (s : Store) (p k : String) (hq : jsStartsWith k p = false) :
    storeGet (s.filter (fun kv => !jsStartsWith kv.1 p)) k = storeGet s k :=
  storeGet_filter_keep s (fun x => jsStartsWith x p) k hq

/-- C7: deleteAll cancels an in-flight request when one is processing, clears
the in-memory sequence, active pointer and message log, removes every
persisted key namespaced by the current user id, and finishes by creating one
fresh active conversation titled "New Conversation", which is the only
conversation left and whose log is empty; keys outside the user namespace are
untouched and the only user key left is the conversation index holding that
single conversation. -/
theorem delete_all_resets (st : ChatState) (u nid nts : String) (hu : st.currentUser = some u) :
    (deleteAllConversationsOp nid nts st).conversations =
      [{ id := nid, title := "New Conversation", timestamp := nts, userId := some u }] ∧
    (deleteAllConversationsOp nid nts st).activeConversation =
      some { id := nid, title := "New Conversation", timestamp := nts, userId := some u } ∧
    (deleteAllConversationsOp nid nts st).messages = [] ∧
    (deleteAllConversationsOp nid nts st).lastUserMessage = "" ∧
    (st.processingConversationId.isSome = true ∧ st.abortController = true →
      ∀ r, st.pending = some r →
        (deleteAllConversationsOp nid nts st).pending = some { r with aborted := true }) ∧
    storeGet (deleteAllConversationsOp nid nts st).storage (conversationsKey u) =
      some (.convs [{ id := nid, title := "New Conversation", timestamp := nts, userId := some u }]) ∧
    (∀ k, jsStartsWith k (u ++ "_") = true → k ≠ conversationsKey u →
      storeGet (deleteAllConversationsOp nid nts st).storage k = none) ∧
    (∀ k, jsStartsWith k (u ++ "_") = false →
      storeGet (deleteAllConversationsOp nid nts st).storage k = storeGet st.storage k) := by
  unfold deleteAllConversationsOp createNewConversationCore
  by_cases habort : st.processingConversationId.isSome = true ∧ st.abortController = true
  case pos =>
    simp only [hu, habort, and_self, not_and, if_true, if_false, ite_true, ite_false, reduceIte]
    refine ⟨?_, ?_, ?_, ?_, ?_, ?_, ?_, ?_⟩
    · rw [flushFrom_conversations]
    · rw [flushFrom_activeConversation]
    · unfold flushFrom
      split
      · rfl
      · simp only [runMessagesEffect, loadConversationMessages, getMsgs]
        rw [storeGet_set_ne _ _ _ _ (messagesKey_ne_conversationsKey u nid),
          storeGet_filter_owned_out st.storage (u ++ "_") (messagesKey u nid) (jsStartsWith_messagesKey u nid)]
    · unfold flushFrom
      split
      · rfl
      · simp only [runMessagesEffect, loadConversationMessages, getMsgs]
        rw [storeGet_set_ne _ _ _ _ (messagesKey_ne_conversationsKey u nid),
          storeGet_filter_owned_out st.storage (u ++ "_") (messagesKey u nid) (jsStartsWith_messagesKey u nid)]
        rfl
    · intro hc r hr
      rw [(flushFrom_frame _ _).2.2.2.2.1]
      simp only [hr]
      rfl
    · rw [(flushFrom_frame _ _).2.2.2.2.2.1]
      exact storeGet_set_self _ _ _
    · intro k hk hkne
      rw [(flushFrom_frame _ _).2.2.2.2.2.1]
      rw [storeGet_set_ne _ _ _ _ hkne]
      exact storeGet_filter_owned_out st.storage (u ++ "_") k hk
    · intro k hk
      have hkne : k ≠ conversationsKey u := by
        intro he
        rw [he, jsStartsWith_conversationsKey] at hk
        cases hk
      rw [(flushFrom_frame _ _).2.2.2.2.2.1]
      rw [storeGet_set_ne _ _ _ _ hkne]
      exact storeGet_filter_owned_keep st.storage (u ++ "_") k hk
  case neg =>
    simp only [hu, habort, and_self, not_and, if_true, if_false, ite_true, ite_false, reduceIte]
    refine ⟨?_, ?_, ?_, ?_, ?_, ?_, ?_, ?_⟩
    · rw [flushFrom_conversations]
    · rw [flushFrom_activeConversation]
    · unfold flushFrom
      split
      · rfl
      · simp only [runMessagesEffect, loadConversationMessages, getMsgs]
        rw [storeGet_set_ne _ _ _ _ (messagesKey_ne_conversationsKey u nid),
          storeGet_filter_owned_out st.storage (u ++ "_") (messagesKey u nid) (jsStartsWith_messagesKey u nid)]
    · unfold flushFrom
      split
      · rfl
      · simp only [runMessagesEffect, loadConversationMessages, getMsgs]
        rw [storeGet_set_ne _ _ _ _ (messagesKey_ne_conversationsKey u nid),
          storeGet_filter_owned_out st.storage (u ++ "_") (messagesKey u nid) (jsStartsWith_messagesKey u nid)]
        rfl
    · intro hc
      exact hc.elim
    · rw [(flushFrom_frame _ _).2.2.2.2.2.1]
      exact storeGet_set_self _ _ _
    · intro k hk hkne
      rw [(flushFrom_frame _ _).2.2.2.2.2.1]
      rw [storeGet_set_ne _ _ _ _ hkne]
      exact storeGet_filter_owned_out st.storage (u ++ "_") k hk
    · intro k hk
      have hkne : k ≠ conversationsKey u := by
        intro he
        rw [he, jsStartsWith_conversationsKey] at hk
        cases hk
      rw [(flushFrom_frame _ _).2.2.2.2.2.1]
      rw [storeGet_set_ne _ _ _ _ hkne]
      exact storeGet_filter_owned_keep st.storage (u ++ "_") k hk

theorem delete_all_resets_witness :
    (deleteAllConversationsOp "n1" "tn" stTwoConvs).conversations =
      [{ id := "n1", title := "New Conversation", timestamp := "tn", userId := some "u1" }] ∧
    (deleteAllConversationsOp "n1" "tn" stTwoConvs).activeConversation =
      some { id := "n1", title := "New Conversation", timestamp := "tn", userId := some "u1" } ∧
    (deleteAllConversationsOp "n1" "tn" stTwoConvs).messages = [] ∧
    (deleteAllConversationsOp "n1" "tn" stTwoConvs).lastUserMessage = "" ∧
    (stTwoConvs.processingConversationId.isSome = true ∧ stTwoConvs.abortController = true →
      ∀ r, stTwoConvs.pending = some r →
        (deleteAllConversationsOp "n1" "tn" stTwoConvs).pending = some { r with aborted := true }) ∧
    storeGet (deleteAllConversationsOp "n1" "tn" stTwoConvs).storage (conversationsKey "u1") =
      some (.convs [{ id := "n1", title := "New Conversation", timestamp := "tn", userId := some "u1" }]) ∧
    (∀ k, jsStartsWith k ("u1" ++ "_") = true → k ≠ conversationsKey "u1" →
      storeGet (deleteAllConversationsOp "n1" "tn" stTwoConvs).storage k = none) ∧
    (∀ k, jsStartsWith k ("u1" ++ "_") = false →
      storeGet (deleteAllConversationsOp "n1" "tn" stTwoConvs).storage k =
        storeGet stTwoConvs.storage k) :=
  delete_all_resets stTwoConvs "u1" "n1" "tn" rfl

theorem stopResponse_props (st : ChatState) (hctrl : st.abortController = true) :
    (stopResponse st).isLoading = false ∧
    (stopResponse st).storage = st.storage ∧
    (stopResponse st).pending = st.pending.map (fun r => { r with aborted := true }) ∧
    (stopResponse st).processingConversationId = none ∧
    (stopResponse st).activeConversation = st.activeConversation ∧
    (stopResponse st).currentUser = st.currentUser := by
  unfold stopResponse
  rw [if_pos hctrl]
  refine ⟨?_, (flushFrom_frame _ _).2.2.2.2.2.1, (flushFrom_frame _ _).2.2.2.2.1,
    (flushFrom_frame _ _).2.2.2.1, (flushFrom_frame _ _).2.2.1, (flushFrom_frame _ _).1⟩
  unfold flushFrom
  split
  · rfl
  · unfold runMessagesEffect loadConversationMessages
    cases hact : st.activeConversation with
    | none => simp [hact]
    | some conv =>
      cases hcu : st.currentUser with
      | none => simp [hcu, hact]
      | some uid => simp [hcu, hact]

theorem resolveOp_aborted (st : ChatState) (req : PendingReq)
    (hp : st.pending = some req) (hab : req.aborted = true)
    (hproc : st.processingConversationId = none) (res : ReplyResult) (fid now : String) :
    (resolveOp res fid now st).storage = st.storage ∧
    (resolveOp res fid now st).messages = st.messages := by
  unfold resolveOp resolveCore settledOutcome
  simp only [hp, hab, if_true, ite_true, reduceIte]
  split
  · unfold flushFrom
    rw [if_pos ⟨rfl, by rw [hproc]⟩]
    exact ⟨rfl, rfl⟩
  · unfold flushFrom
    rw [if_pos ⟨rfl, by rw [hproc]⟩]
    exact ⟨rfl, rfl⟩

/-- C2: once Stop has been called on a pending request, the loading indicator
is cleared immediately and the later settling of the reply operation, whatever
its underlying result, changes neither the persisted storage nor the visible
log: no assistant message (success or error) is ever applied for that
request. -/
theorem stop_suppresses_late_resolution (st : ChatState) (res : ReplyResult) (fid now : String)
    (hpend : st.pending.isSome = true) (hctrl : st.abortController = true) :
    (stopResponse st).isLoading = false ∧
    (stopResponse st).storage = st.storage ∧
    (resolveOp res fid now (stopResponse st)).storage = st.storage ∧
    (resolveOp res fid now (stopResponse st)).messages = (stopResponse st).messages := by
  obtain ⟨req, hreq⟩ := Option.isSome_iff_exists.mp hpend
  have hs := stopResponse_props st hctrl
  have habp : (stopResponse st).pending = some { req with aborted := true } := by
    rw [hs.2.2.1, hreq]
    rfl
  have hr := resolveOp_aborted (stopResponse st) { req with aborted := true } habp rfl
    hs.2.2.2.1 res fid now
  exact ⟨hs.1, hs.2.1, by rw [hr.1, hs.2.1], hr.2⟩

theorem stop_suppresses_late_resolution_witness :
    (stopResponse stSending).isLoading = false ∧
    (stopResponse stSending).storage = stSending.storage ∧
    (resolveOp (.ok "late reply") "f1" "t9" (stopResponse stSending)).storage = stSending.storage ∧
    (resolveOp (.ok "late reply") "f1" "t9" (stopResponse stSending)).messages =
      (stopResponse stSending).messages :=
  stop_suppresses_late_resolution stSending (.ok "late reply") "f1" "t9" (by decide) (by decide)

theorem resolveOp_ok_storage (st : ChatState) (req : PendingReq) (u : String)
    (hp : st.pending = some req) (hu : st.currentUser = some u) (hab : req.aborted = false)
    (reply fid now : String) :
    getMsgs (resolveOp (.ok reply) fid now st).storage (messagesKey u req.conversationId) =
      req.baseMessages ++ [{ id := fid, content := reply, sender := "ai", timestamp := now, language := some req.preferredLanguage }] := by
  unfold resolveOp resolveCore settledOutcome
  simp only [hp, hu, hab, Bool.false_eq_true, if_false, ite_false, reduceIte]
  rw [(flushFrom_frame _ _).2.2.2.2.2.1]
  cases hkind : req.kind
  all_goals simp only [hkind, apply_ite ChatState.storage, ite_self]
  all_goals exact getMsgs_set_self _ _ _

theorem flushFrom_effect_messages (pre post : ChatState) (u : String) (a : Conversation)
    (hcond : ¬(post.activeConversation = pre.activeConversation ∧
               post.processingConversationId = pre.processingConversationId))
    (hact : post.activeConversation = some a) (hu : post.currentUser = some u) :
    (flushFrom pre post).messages = getMsgs post.storage (messagesKey u a.id) := by
  unfold flushFrom
  rw [if_neg hcond]
  unfold runMessagesEffect loadConversationMessages
  simp only [hact, hu]

theorem resolveCore_ok_props (st : ChatState) (req : PendingReq) (u : String)
    (hp : st.pending = some req) (hu : st.currentUser = some u) (hab : req.aborted = false)
    (reply fid now : String) :
    (resolveCore (.ok reply) fid now st).activeConversation = st.activeConversation ∧
    (resolveCore (.ok reply) fid now st).processingConversationId = none ∧
    (resolveCore (.ok reply) fid now st).currentUser = some u ∧
    (resolveCore (.ok reply) fid now st).storage =
      storeSet
        (storeSet st.storage (conversationsKey u)
          (.convs (req.snapConversations.map (fun conv =>
            if conv.id = req.conversationId then { conv with timestamp := now } else conv))))
        (messagesKey u req.conversationId)
        (.msgs (req.baseMessages ++ [{ id := fid, content := reply, sender := "ai", timestamp := now, language := some req.preferredLanguage }])) := by
  unfold resolveCore settledOutcome
  simp only [hp, hu, hab, Bool.false_eq_true, if_false, ite_false, reduceIte]
  cases hkind : req.kind
  all_goals simp only [hkind, apply_ite ChatState.activeConversation,
    apply_ite ChatState.processingConversationId, apply_ite ChatState.currentUser,
    apply_ite ChatState.storage, ite_self]
  all_goals exact ⟨by trivial, by trivial, by trivial, by trivial⟩

theorem resolveOp_ok_focused (st : ChatState) (req : PendingReq) (u : String) (a : Conversation)
    (hp : st.pending = some req) (hu : st.currentUser = some u) (hab : req.aborted = false)
    (hact : st.activeConversation = some a) (haid : a.id = req.conversationId)
    (hproc : st.processingConversationId = some req.conversationId)
    (reply fid now : String) :
    (resolveOp (.ok reply) fid now st).messages =
      req.baseMessages ++ [{ id := fid, content := reply, sender := "ai", timestamp := now, language := some req.preferredLanguage }] := by
  have hprops := resolveCore_ok_props st req u hp hu hab reply fid now
  unfold resolveOp
  rw [flushFrom_effect_messages st _ u a ?hc (by rw [hprops.1, hact]) hprops.2.2.1]
  case hc =>
    intro hcond
    have h2 := hcond.2
    rw [hprops.2.1, hproc] at h2
    cases h2
  rw [hprops.2.2.2, haid, getMsgs_set_self]

theorem resolveOp_ok_switched (st : ChatState) (req : PendingReq) (u : String) (b : Conversation)
    (hp : st.pending = some req) (hu : st.currentUser = some u) (hab : req.aborted = false)
    (hact : st.activeConversation = some b) (hbid : b.id ≠ req.conversationId)
    (hproc : st.processingConversationId = some req.conversationId)
    (reply fid now : String) :
    (resolveOp (.ok reply) fid now st).messages = getMsgs st.storage (messagesKey u b.id) := by
  have hprops := resolveCore_ok_props st req u hp hu hab reply fid now
  unfold resolveOp
  rw [flushFrom_effect_messages st _ u b ?hc (by rw [hprops.1, hact]) hprops.2.2.1]
  case hc =>
    intro hcond
    have h2 := hcond.2
    rw [hprops.2.1, hproc] at h2
    cases h2
  rw [hprops.2.2.2]
  unfold getMsgs
  rw [storeGet_set_ne _ _ _ _ (fun he => hbid (messagesKey_inj u b.id req.conversationId he)),
    storeGet_set_ne _ _ _ _ (messagesKey_ne_conversationsKey u b.id)]

theorem sendMessageOp_props (st : ChatState) (u : String) (a : Conversation)
    (content umid uts nid nts : String)
    (hu : st.currentUser = some u) (ha : st.activeConversation = some a) :
    (sendMessageOp content umid uts nid nts st).2 = .started ∧
    (sendMessageOp content umid uts nid nts st).1.currentUser = some u ∧
    (sendMessageOp content umid uts nid nts st).1.activeConversation.map (fun c => c.id) = some a.id ∧
    (sendMessageOp content umid uts nid nts st).1.processingConversationId = some a.id ∧
    (sendMessageOp content umid uts nid nts st).1.pending = some
      { kind := .send, conversationId := a.id, content := content, baseMessages := st.messages ++ [{ id := umid, content := content, sender := "user", timestamp := uts }], history := st.messages, preferredLanguage := preferredLangOf st.storage, snapActive := some a, snapConversations := st.conversations, aborted := false } ∧
    (∀ k, k ≠ messagesKey u a.id → k ≠ conversationsKey u →
      storeGet (sendMessageOp content umid uts nid nts st).1.storage k = storeGet st.storage k) := by
  unfold sendMessageOp sendMessageCore updateConversationTitle
  simp only [ha, hu, Option.map_some']
  by_cases hm : st.messages = []
  all_goals simp only [hm, if_true, if_false, ite_true, ite_false, reduceIte]
  case pos =>
    refine ⟨by trivial, (flushFrom_frame _ _).1, ?_, (flushFrom_frame _ _).2.2.2.1,
      (flushFrom_frame _ _).2.2.2.2.1, ?_⟩
    · rw [(flushFrom_frame _ _).2.2.1]
      rfl
    · intro k hk1 hk2
      rw [(flushFrom_frame _ _).2.2.2.2.2.1]
      rw [storeGet_set_ne _ _ _ _ hk1, storeGet_set_ne _ _ _ _ hk2]
  case neg =>
    refine ⟨by trivial, (flushFrom_frame _ _).1, ?_, (flushFrom_frame _ _).2.2.2.1,
      (flushFrom_frame _ _).2.2.2.2.1, ?_⟩
    · rw [(flushFrom_frame _ _).2.2.1]
      rfl
    · intro k hk1 hk2
      rw [(flushFrom_frame _ _).2.2.2.2.2.1]
      rw [storeGet_set_ne _ _ _ _ hk1]

theorem switch_props (st : ChatState) (b : Conversation) (u : String)
    (hu : st.currentUser = some u)
    (hne : st.activeConversation.map (fun c => c.id) ≠ some b.id) :
    (setActiveConversationWithStorage b st).currentUser = some u ∧
    (setActiveConversationWithStorage b st).activeConversation = some b ∧
    (setActiveConversationWithStorage b st).processingConversationId = st.processingConversationId ∧
    (setActiveConversationWithStorage b st).pending = st.pending ∧
    (∀ k, k ≠ activeConvKey u →
      storeGet (setActiveConversationWithStorage b st).storage k = storeGet st.storage k) ∧
    (setActiveConversationWithStorage b st).messages = getMsgs st.storage (messagesKey u b.id) := by
  unfold setActiveConversationWithStorage
  rw [if_neg hne]
  simp only [hu]
  refine ⟨(flushFrom_frame _ _).1, (flushFrom_frame _ _).2.2.1, (flushFrom_frame _ _).2.2.2.1,
    (flushFrom_frame _ _).2.2.2.2.1, ?_, ?_⟩
  · intro k hk
    rw [(flushFrom_frame _ _).2.2.2.2.2.1]
    exact storeGet_set_ne _ _ _ _ hk
  · rw [flushFrom_effect_messages st _ u b ?hc rfl rfl]
    case hc =>
      intro hcond
      apply hne
      rw [← hcond.1]
      rfl
    unfold getMsgs
    rw [storeGet_set_ne _ _ _ _ (messagesKey_ne_activeConvKey u b.id)]

/-- C1: a send started on conversation A, followed by a switch to conversation
B before the reply resolves, followed by a successful resolution, appends the
user message and the assistant reply to A's persisted message key while the
visible log (showing B) is exactly what it was right after the switch. -/
theorem send_switch_resolve_isolated (st : ChatState) (u : String) (a b : Conversation)
    (content umid uts nid nts reply fid now : String)
    (hu : st.currentUser = some u) (ha : st.activeConversation = some a)
    (hab : b.id ≠ a.id) :
    getMsgs (resolveOp (.ok reply) fid now
        (setActiveConversationWithStorage b (sendMessageOp content umid uts nid nts st).1)).storage
      (messagesKey u a.id) =
      st.messages ++ [{ id := umid, content := content, sender := "user", timestamp := uts }, { id := fid, content := reply, sender := "ai", timestamp := now, language := some (preferredLangOf st.storage) }] ∧
    (resolveOp (.ok reply) fid now
        (setActiveConversationWithStorage b (sendMessageOp content umid uts nid nts st).1)).messages =
      (setActiveConversationWithStorage b (sendMessageOp content umid uts nid nts st).1).messages := by
  obtain ⟨hstart, hu1, hact1, hproc1, hpend1, hstor1⟩ :=
    sendMessageOp_props st u a content umid uts nid nts hu ha
  have hne1 : (sendMessageOp content umid uts nid nts st).1.activeConversation.map
      (fun c => c.id) ≠ some b.id := by
    rw [hact1]
    intro hx
    rw [Option.some.injEq] at hx
    exact hab hx.symm
  obtain ⟨hu2, hact2, hproc2, hpend2, hstor2, hmsg2⟩ :=
    switch_props (sendMessageOp content umid uts nid nts st).1 b u hu1 hne1
  rw [hpend1] at hpend2
  rw [hproc1] at hproc2
  constructor
  · have h1 := resolveOp_ok_storage
      (setActiveConversationWithStorage b (sendMessageOp content umid uts nid nts st).1)
      _ u hpend2 hu2 rfl reply fid now
    simpa using h1
  · have h2 := resolveOp_ok_switched
      (setActiveConversationWithStorage b (sendMessageOp content umid uts nid nts st).1)
      _ u b hpend2 hu2 rfl hact2 hab hproc2 reply fid now
    rw [h2, hmsg2]
    unfold getMsgs
    rw [hstor2 _ (messagesKey_ne_activeConvKey u b.id)]

theorem filter_ne_of_findIndex_last (msgs : List Message) (mid : String)
    (hfind : jsFindIndex (fun m => decide (m.id = mid)) msgs = some (msgs.length - 1)) :
    msgs.filter (fun m => decide (m.id ≠ mid)) = msgs.dropLast := by
  induction msgs with
  | nil => simp [jsFindIndex] at hfind
  | cons m rest ih =>
    unfold jsFindIndex at hfind
    by_cases hm : m.id = mid
    · rw [if_pos (by simp [hm])] at hfind
      have hlen : rest.length = 0 := by
        have := Option.some.inj hfind
        simp at this
        omega
      have hrest : rest = [] := List.length_eq_zero.mp hlen
      subst hrest
      simp [List.filter, hm]
    · rw [if_neg (by simp [hm])] at hfind
      cases hrec : jsFindIndex (fun m => decide (m.id = mid)) rest with
      | none =>
        rw [hrec] at hfind
        simp at hfind
      | some k =>
        rw [hrec] at hfind
        have hk1 : k + 1 = (m :: rest).length - 1 := by
          have := Option.some.inj hfind
          simpa using this
        have hrestne : rest ≠ [] := by
          intro hnil
          subst hnil
          simp at hk1
        have hk : k = rest.length - 1 := by
          simp at hk1
          omega
        have hfilter := ih (by rw [hrec, hk])
        rw [List.filter_cons, if_pos (by simp [hm]), hfilter]
        cases rest with
        | nil => exact absurd rfl hrestne
        | cons c t => rfl

theorem regenerateResponseOp_props (st : ChatState) (u : String) (a : Conversation)
    (mid errId errTs : String) (i j : Nat) (target um : Message)
    (hu : st.currentUser = some u) (ha : st.activeConversation = some a)
    (hfind : jsFindIndex (fun m => decide (m.id = mid)) st.messages = some i)
    (hget : st.messages.get? i = some target) (hai : target.sender = "ai")
    (hscan : scanBackForUser st.messages i = some j) (hgetj : st.messages.get? j = some um) :
    (regenerateResponseOp mid errId errTs st).2 = .started ∧
    (regenerateResponseOp mid errId errTs st).1.currentUser = some u ∧
    (regenerateResponseOp mid errId errTs st).1.activeConversation = some a ∧
    (regenerateResponseOp mid errId errTs st).1.processingConversationId = some a.id ∧
    (regenerateResponseOp mid errId errTs st).1.pending = some
      { kind := .regen, conversationId := a.id, content := um.content, baseMessages := (if i < st.messages.length - 1 then st.messages.take i else st.messages.filter (fun m => decide (m.id ≠ mid))), history := (if i < st.messages.length - 1 then st.messages.take i else st.messages.filter (fun m => decide (m.id ≠ mid))).take j, preferredLanguage := preferredLangOf st.storage, snapActive := some a, snapConversations := st.conversations, aborted := false } := by
  unfold regenerateResponseOp regenerateResponseCore
  rw [hfind]
  simp only [hget, hscan, hgetj, ha, hu, hai, ne_eq, not_true_eq_false, if_false,
    Option.map_some', reduceIte]
  rw [preferredLangOf_set_ne _ _ _ (preferredLanguageKey_ne_messagesKey u a.id)]
  exact ⟨by trivial, (flushFrom_frame _ _).1, (flushFrom_frame _ _).2.2.1,
    (flushFrom_frame _ _).2.2.2.1, (flushFrom_frame _ _).2.2.2.2.1⟩

/-- C3: regenerating an assistant message identified by messageId (located at
its first occurrence i in the visible log, with a preceding user message)
truncates and appends: when the message is last, exactly that message is
removed and exactly one new assistant message is appended; when it is not
last, everything from index i onward is dropped and exactly one new assistant
message is appended, leaving the earlier prefix untouched; the persisted
sequence equals the resulting visible log. -/
theorem regen_truncates_and_appends (st : ChatState) (u : String) (a : Conversation)
    (mid errId errTs : String) (i j : Nat) (target um : Message) (reply fid now : String)
    (hu : st.currentUser = some u) (ha : st.activeConversation = some a)
    (hfind : jsFindIndex (fun m => decide (m.id = mid)) st.messages = some i)
    (hget : st.messages.get? i = some target) (hai : target.sender = "ai")
    (hscan : scanBackForUser st.messages i = some j) (hgetj : st.messages.get? j = some um) :
    (regenerateResponseOp mid errId errTs st).2 = .started ∧
    (i = st.messages.length - 1 →
      (resolveOp (.ok reply) fid now (regenerateResponseOp mid errId errTs st).1).messages =
        st.messages.dropLast ++ [{ id := fid, content := reply, sender := "ai", timestamp := now, language := some (preferredLangOf st.storage) }]) ∧
    (i < st.messages.length - 1 →
      (resolveOp (.ok reply) fid now (regenerateResponseOp mid errId errTs st).1).messages =
        st.messages.take i ++ [{ id := fid, content := reply, sender := "ai", timestamp := now, language := some (preferredLangOf st.storage) }]) ∧
    getMsgs (resolveOp (.ok reply) fid now (regenerateResponseOp mid errId errTs st).1).storage
      (messagesKey u a.id) =
      (resolveOp (.ok reply) fid now (regenerateResponseOp mid errId errTs st).1).messages := by
  obtain ⟨hstart, hu1, hact1, hproc1, hpend1⟩ :=
    regenerateResponseOp_props st u a mid errId errTs i j target um hu ha hfind hget hai hscan hgetj
  have hfoc := resolveOp_ok_focused (regenerateResponseOp mid errId errTs st).1 _ u a
    hpend1 hu1 rfl hact1 rfl hproc1 reply fid now
  have hstor := resolveOp_ok_storage (regenerateResponseOp mid errId errTs st).1 _ u
    hpend1 hu1 rfl reply fid now
  refine ⟨hstart, ?_, ?_, ?_⟩
  · intro hlast
    rw [hfoc]
    show (if i < st.messages.length - 1 then st.messages.take i
        else st.messages.filter (fun m => decide (m.id ≠ mid))) ++ _ = _
    rw [if_neg (by omega), filter_ne_of_findIndex_last st.messages mid (by rw [← hlast]; exact hfind)]
  · intro hlt
    rw [hfoc]
    show (if i < st.messages.length - 1 then st.messages.take i
        else st.messages.filter (fun m => decide (m.id ≠ mid))) ++ _ = _
    rw [if_pos hlt]
  · rw [hfoc]
    exact hstor

theorem send_switch_resolve_isolated_witness :
    getMsgs (resolveOp (.ok "ans") "f1" "t10"
        (setActiveConversationWithStorage convB (sendMessageOp "ping" "mu9" "t9" "n0" "tn" stTwoConvs).1)).storage
      (messagesKey "u1" convA.id) =
      stTwoConvs.messages ++ [{ id := "mu9", content := "ping", sender := "user", timestamp := "t9" }, { id := "f1", content := "ans", sender := "ai", timestamp := "t10", language := some (preferredLangOf stTwoConvs.storage) }] ∧
    (resolveOp (.ok "ans") "f1" "t10"
        (setActiveConversationWithStorage convB (sendMessageOp "ping" "mu9" "t9" "n0" "tn" stTwoConvs).1)).messages =
      (setActiveConversationWithStorage convB (sendMessageOp "ping" "mu9" "t9" "n0" "tn" stTwoConvs).1).messages :=
  send_switch_resolve_isolated stTwoConvs "u1" convA convB "ping" "mu9" "t9" "n0" "tn"
    "ans" "f1" "t10" rfl rfl (by decide)

theorem regen_truncates_and_appends_witness :
    (regenerateResponseOp "ma1" "e9" "t9" stTwoConvs).2 = .started ∧
    (1 = stTwoConvs.messages.length - 1 →
      (resolveOp (.ok "better") "f2" "t11" (regenerateResponseOp "ma1" "e9" "t9" stTwoConvs).1).messages =
        stTwoConvs.messages.dropLast ++ [{ id := "f2", content := "better", sender := "ai", timestamp := "t11", language := some (preferredLangOf stTwoConvs.storage) }]) ∧
    (1 < stTwoConvs.messages.length - 1 →
      (resolveOp (.ok "better") "f2" "t11" (regenerateResponseOp "ma1" "e9" "t9" stTwoConvs).1).messages =
        stTwoConvs.messages.take 1 ++ [{ id := "f2", content := "better", sender := "ai", timestamp := "t11", language := some (preferredLangOf stTwoConvs.storage) }]) ∧
    getMsgs (resolveOp (.ok "better") "f2" "t11" (regenerateResponseOp "ma1" "e9" "t9" stTwoConvs).1).storage
      (messagesKey "u1" convA.id) =
      (resolveOp (.ok "better") "f2" "t11" (regenerateResponseOp "ma1" "e9" "t9" stTwoConvs).1).messages :=
  regen_truncates_and_appends stTwoConvs "u1" convA "ma1" "e9" "t9" 1 0 msgAiA msgUserA
    "better" "f2" "t11" rfl rfl (by decide) (by decide) rfl (by decide) (by decide)
